import Mathlib

/-!
Shallow embedding of the ie-backend controllers and middleware:
the auth controller (signupUser, loginUser), the post controller
(createPost, updatePost, deletePost) and the auth middleware.
External collaborators (bcryptjs, jsonwebtoken, the mongoose stores)
are modelled explicitly; the stores are lists of records and every
query from the source is translated to the corresponding list query.
-/

/-- JS falsy test for an optional string request field: `!x` is true in JS
when the field is absent (`undefined`) or the empty string. -/
def falsy : Option String → Bool
  | none => true
  | some s => s.isEmpty

/-- Extract the string of a present field (the handlers only use it after
the falsy check has passed). -/
def oget : Option String → String
  | none => ""
  | some s => s

/-- Modelled from bcryptjs (external library): a bcrypt hash records the
salt it was generated with and, abstractly, the plaintext it hashes, so
that compare can be stated as the functional relation bcrypt guarantees.
The one-way property plays no role in any claim. -/
structure BcryptHash where
  salt : Nat
  plain : String
deriving DecidableEq, Repr

/-- Modelled from bcryptjs: `bcrypt.hash(password, salt)`. -/
def bcryptHash (salt : Nat) (password : String) : BcryptHash :=
  ⟨salt, password⟩

/-- Modelled from bcryptjs: `bcrypt.compare(plaintext, storedHash)` is true
exactly when the stored hash is a hash of the plaintext. -/
def bcryptCompare (plaintext : String) (h : BcryptHash) : Bool :=
  plaintext == h.plain

/-- The identity snapshot embedded in tokens and attached to requests:
a User document after `toObject()` with the password field deleted. -/
structure UserSnapshot where
  id : Nat
  fullName : String
  email : String
  username : String
deriving DecidableEq, Repr

/-- A User document as persisted in the user store (models/User):
the `password` field stores the bcrypt hash. -/
structure StoredUser where
  id : Nat
  fullName : String
  email : String
  username : String
  password : BcryptHash
deriving DecidableEq, Repr

/-- `toObject()` followed by `delete user.password`. -/
def toSnapshot (u : StoredUser) : UserSnapshot :=
  ⟨u.id, u.fullName, u.email, u.username⟩

/-- The payload handed to `jwt.sign`: the source signs `{ user: ... }`,
and the middleware reads `decoded.user`, which may be absent. -/
structure JwtPayload where
  user : Option UserSnapshot
deriving DecidableEq, Repr

/-- Modelled from jsonwebtoken (external library): a signed token records
its payload, the signing secret, the issued-at time and the expiry time
in seconds. -/
structure SignedToken where
  payload : JwtPayload
  secret : String
  iat : Nat
  exp : Nat
deriving DecidableEq, Repr

/-- Modelled from jsonwebtoken: `jwt.sign(payload, secret, { expiresIn: '1d' })`
sets the expiry exactly one day (86400 seconds) after issuance. -/
def jwtSign (payload : JwtPayload) (secret : String) (now : Nat) : SignedToken :=
  ⟨payload, secret, now, now + 86400⟩

/-- The value of the `authorization` header as the middleware sees it:
either exactly a serialized signed token, a token preceded by the
"Bearer " scheme word (which is not itself a well-formed JWT string),
or any other string. -/
inductive HeaderValue
  | token (t : SignedToken)
  | bearerToken (t : SignedToken)
  | other (s : String)
deriving DecidableEq, Repr

/-- Modelled from jsonwebtoken: the three verification failure modes. -/
inductive JwtError
  | malformed
  | invalidSignature
  | expired
deriving DecidableEq, Repr

/-- Modelled from jsonwebtoken: `jwt.verify(str, secret)` at clock time
`now`. A string that is not exactly a serialized token (in particular one
with a "Bearer " scheme word in front) fails to decode; a decoded token
fails on a secret mismatch; an expiry in the past (clock time at or after
`exp`) fails as expired; otherwise the embedded payload is returned
exactly as issued. -/
def jwtVerify (h : HeaderValue) (secret : String) (now : Nat) :
    Except JwtError JwtPayload :=
  match h with
  | .token t =>
    if t.secret != secret then .error .invalidSignature
    else if t.exp ≤ now then .error .expired
    else .ok t.payload
  | .bearerToken _ => .error .malformed
  | .other _ => .error .malformed

/-- Error messages of the modelled jwt verification failures. -/
def jwtErrMessage : JwtError → String
  | .malformed => "jwt malformed"
  | .invalidSignature => "invalid signature"
  | .expired => "jwt expired"

/-- JS falsy test on the destructured header value: the empty string is
falsy, any other present value is truthy. -/
def headerFalsy : HeaderValue → Bool
  | .other s => s.isEmpty
  | _ => false

/-- The body of the try block of src/middlewares/auth.middleware.js:
throw "No Auth Token!" when the header is falsy, verify the token,
throw "User object missing!" when `decoded.user` is absent, otherwise
produce the snapshot assigned to `req.user`. -/
def authTry (authorization : Option HeaderValue) (secret : String) (now : Nat) :
    Except String UserSnapshot :=
  match authorization with
  | none => .error "No Auth Token!"
  | some h =>
    if headerFalsy h then .error "No Auth Token!"
    else
      match jwtVerify h secret now with
      | .error e => .error (jwtErrMessage e)
      | .ok decoded =>
        match decoded.user with
        | none => .error "User object missing!"
        | some u => .ok u

/-- Outcome of the auth middleware: a denied request carries the literal
response fields produced in the catch block (status, message, success)
together with whether the authToken cookie was cleared; a passed request
carries the snapshot attached as `req.user` for the downstream handler. -/
inductive AuthOutcome
  | denied (status : Nat) (message : String) (success : Bool) (clearedCookie : Bool)
  | proceed (user : UserSnapshot)
deriving DecidableEq, Repr

/-- src/middlewares/auth.middleware.js `auth`: any exception from the try
block reaches the single catch block, which clears the authToken cookie
and answers 401 with the one literal body. -/
def auth (authorization : Option HeaderValue) (secret : String) (now : Nat) :
    AuthOutcome :=
  match authTry authorization secret now with
  | .error _ => .denied 401 "Access Denied" false true
  | .ok u => .proceed u

/-- `ApiError` from utils/custom.util as thrown by the handlers. -/
structure ApiError where
  message : String
  statusCode : Nat
deriving DecidableEq, Repr

/-- An exception escaping a handler into `next(error)`: either a thrown
`ApiError` or a plain JS runtime error such as a ReferenceError. -/
inductive JsError
  | api (e : ApiError)
  | referenceError (msg : String)
deriving DecidableEq, Repr

/-- Request body of POST /api/auth/signup, fields as destructured. -/
structure SignupBody where
  fullName : Option String
  email : Option String
  password : Option String
  username : Option String
deriving DecidableEq, Repr

/-- Request body of POST /api/auth/login, fields as destructured. -/
structure LoginBody where
  user : Option String
  password : Option String
deriving DecidableEq, Repr

/-- Success body `{ user, authToken }` of the auth handlers. -/
structure AuthBody where
  user : UserSnapshot
  authToken : SignedToken
deriving DecidableEq, Repr

/-- authController.signupUser. Checks the four fields, runs the single
combined existence query `User.findOne({ $or: [{email}, {username}] })`,
hashes the password, saves the new user, and then evaluates
`jwt.sign({ user: loggedInUser }, ...)`. No binding named `loggedInUser`
exists in this function in the source, so that expression throws a
ReferenceError — after the save — and the catch forwards it to
`next(error)`; `res.status(201)` is never reached. The state component of
the result is the user store after the call. -/
def signupUser (db : List StoredUser) (freshId salt : Nat) (body : SignupBody) :
    List StoredUser × Except JsError (Nat × AuthBody) :=
  if falsy body.fullName || falsy body.email || falsy body.password ||
      falsy body.username then
    (db, .error (.api ⟨"Required fields are missing", 400⟩))
  else
    match db.find? (fun u =>
        u.email == oget body.email || u.username == oget body.username) with
    | some _ =>
      (db, .error (.api ⟨"Account with same email or username already exists", 409⟩))
    | none =>
      (db ++ [⟨freshId, oget body.fullName, oget body.email, oget body.username,
               bcryptHash salt (oget body.password)⟩],
       .error (.referenceError "loggedInUser is not defined"))

/-- authController.loginUser. Checks the two fields, runs
`User.findOne({ $or: [{email: user}, {username: user}] })`, compares the
password against the stored hash, strips the password field, signs a
token over `{ user: loggedInUser }` and answers 200. -/
def loginUser (db : List StoredUser) (secret : String) (now : Nat)
    (body : LoginBody) : Except JsError (Nat × AuthBody) :=
  if falsy body.user || falsy body.password then
    .error (.api ⟨"Required fields are missing", 400⟩)
  else
    match db.find? (fun u =>
        u.email == oget body.user || u.username == oget body.user) with
    | none => .error (.api ⟨"User does not exist!", 404⟩)
    | some loggedInUser =>
      if !(bcryptCompare (oget body.password) loggedInUser.password) then
        .error (.api ⟨"Invalid Password", 401⟩)
      else
        .ok (200, ⟨toSnapshot loggedInUser,
          jwtSign ⟨some (toSnapshot loggedInUser)⟩ secret now⟩)

/-- A Post document of the post store (models/Post). -/
structure Post where
  id : Nat
  title : String
  createdBy : Nat
deriving DecidableEq, Repr

/-- The `postId` request field as received: absent, present but not a
well-formed ObjectId (`mongoose.isValidObjectId` false), or a well-formed
identifier. -/
inductive ReqId
  | missing
  | malformed (s : String)
  | valid (id : Nat)
deriving DecidableEq, Repr

/-- The 404 message `Post with id: ${postId} does not exist!`. -/
def notFoundMsg (pid : Nat) : String :=
  "Post with id: " ++ toString pid ++ " does not exist!"

/-- Mutate the first list element satisfying the predicate, as
`findOne` + in-place field assignment + `save()` does on the store. -/
def updateFirst {α : Type} (l : List α) (p : α → Bool) (f : α → α) : List α :=
  match l with
  | [] => []
  | x :: xs => if p x then f x :: xs else x :: updateFirst xs p f

/-- Remove the first list element satisfying the predicate, as
`findOne` + `delete()` does on the store. -/
def deleteFirst {α : Type} (l : List α) (p : α → Bool) : List α :=
  match l with
  | [] => []
  | x :: xs => if p x then xs else x :: deleteFirst xs p

/-- postController.createPost: 400 when the title is falsy, otherwise
`Post.create({ title, createdBy: user._id })` and 201 with the created
post converted by `toObject()` to a plain structure. -/
def createPost (posts : List Post) (freshId : Nat) (user : UserSnapshot)
    (title : Option String) : List Post × Except JsError (Nat × Post) :=
  if falsy title then
    (posts, .error (.api ⟨"Required fields are missing!", 400⟩))
  else
    (posts ++ [⟨freshId, oget title, user.id⟩],
     .ok (201, ⟨freshId, oget title, user.id⟩))

/-- postController.updatePost: 400 when title or postId is falsy or postId
is not a well-formed identifier; then the single query
`Post.findOne({ _id: postId, createdBy: user._id })` decides existence and
ownership together — no match yields the 404, a match has its title
assigned and saved and is returned with 200. -/
def updatePost (posts : List Post) (user : UserSnapshot) (title : Option String)
    (postId : ReqId) : List Post × Except JsError (Nat × Post) :=
  match title, postId with
  | some t, .valid pid =>
    if t.isEmpty then
      (posts, .error (.api ⟨"Required fields are missing", 400⟩))
    else
      match posts.find? (fun p => p.id == pid && p.createdBy == user.id) with
      | none => (posts, .error (.api ⟨notFoundMsg pid, 404⟩))
      | some post =>
        (updateFirst posts (fun p => p.id == pid && p.createdBy == user.id)
           (fun p => { p with title := t }),
         .ok (200, { post with title := t }))
  | _, _ => (posts, .error (.api ⟨"Required fields are missing", 400⟩))

/-- postController.deletePost: same field check and the same single
ownership-and-existence query as updatePost; a match is deleted and the
response is 200 with empty data. -/
def deletePost (posts : List Post) (user : UserSnapshot) (postId : ReqId) :
    List Post × Except JsError (Nat × Unit) :=
  match postId with
  | .valid pid =>
    match posts.find? (fun p => p.id == pid && p.createdBy == user.id) with
    | none => (posts, .error (.api ⟨notFoundMsg pid, 404⟩))
    | some _ =>
      (deleteFirst posts (fun p => p.id == pid && p.createdBy == user.id),
       .ok (200, ()))
  | _ => (posts, .error (.api ⟨"Required fields are missing", 400⟩))

/-- Claim C1 (code_bug evidence): at a fully valid signup request on an
empty user store, signupUser persists the new user and then throws the
ReferenceError from the undefined `loggedInUser` in the token-signing
expression, so it never responds 201 with a token embedding the newly
created user's snapshot. -/
theorem signupHappyPathThrowsReferenceError :
    signupUser [] 1 0 ⟨some "John Doe", some "doe.john@example.com",
        some "john.doe.123", some "doe.john"⟩ =
      ([⟨1, "John Doe", "doe.john@example.com", "doe.john",
          bcryptHash 0 "john.doe.123"⟩],
       .error (.referenceError "loggedInUser is not defined")) := by
  rfl

/-- Claim C4: verifying a token issued for a snapshot with the same secret
yields the embedded snapshot exactly as issued while the current time is
less than issuance plus one day (86400 s); at or past that boundary
verification fails with the expiry error. -/
theorem tokenRoundTrip (u : UserSnapshot) (secret : String) (iat now : Nat) :
    (now < iat + 86400 →
      jwtVerify (.token (jwtSign ⟨some u⟩ secret iat)) secret now =
        .ok ⟨some u⟩) ∧
    (iat + 86400 ≤ now →
      jwtVerify (.token (jwtSign ⟨some u⟩ secret iat)) secret now =
        .error .expired) := by
  constructor
  · intro h
    simp [jwtVerify, jwtSign, Nat.not_le.mpr h]
  · intro h
    simp [jwtVerify, jwtSign, h]

/-- Witness for tokenRoundTrip at a concrete snapshot, secret and clock. -/
theorem tokenRoundTrip_witness :
    jwtVerify (.token (jwtSign ⟨some ⟨7, "John Doe", "doe.john@example.com",
        "doe.john"⟩⟩ "secret" 1000)) "secret" 1999 =
      .ok ⟨some ⟨7, "John Doe", "doe.john@example.com", "doe.john"⟩⟩ ∧
    jwtVerify (.token (jwtSign ⟨some ⟨7, "John Doe", "doe.john@example.com",
        "doe.john"⟩⟩ "secret" 1000)) "secret" 87400 =
      .error .expired :=
  ⟨(tokenRoundTrip ⟨7, "John Doe", "doe.john@example.com", "doe.john"⟩
      "secret" 1000 1999).1 (by decide),
   (tokenRoundTrip ⟨7, "John Doe", "doe.john@example.com", "doe.john"⟩
      "secret" 1000 87400).2 (by decide)⟩

/-- Claim C10: the middleware hands the authorization header to
verification verbatim, so a valid token preceded by the "Bearer " scheme
word is rejected with the 401 body, while the bare token string
authenticates and attaches the embedded snapshot. -/
theorem bearerSchemeDenied (t : SignedToken) (secret : String) (now : Nat)
    (u : UserSnapshot) (hs : t.secret = secret) (he : now < t.exp)
    (hu : t.payload.user = some u) :
    auth (some (.bearerToken t)) secret now =
      .denied 401 "Access Denied" false true ∧
    auth (some (.token t)) secret now = .proceed u := by
  constructor
  · rfl
  · simp [auth, authTry, headerFalsy, jwtVerify, hs, Nat.not_le.mpr he, hu]

/-- Witness for bearerSchemeDenied at a concrete valid token. -/
theorem bearerSchemeDenied_witness :
    auth (some (.bearerToken ⟨⟨some ⟨1, "A", "a@x", "a"⟩⟩, "s", 0, 86400⟩))
        "s" 10 = .denied 401 "Access Denied" false true ∧
    auth (some (.token ⟨⟨some ⟨1, "A", "a@x", "a"⟩⟩, "s", 0, 86400⟩)) "s" 10 =
      .proceed ⟨1, "A", "a@x", "a"⟩ :=
  bearerSchemeDenied ⟨⟨some ⟨1, "A", "a@x", "a"⟩⟩, "s", 0, 86400⟩ "s" 10
    ⟨1, "A", "a@x", "a"⟩ (by rfl) (by decide) (by rfl)

/-- Claim C3: an absent authorization header, any verification failure,
and a verified payload lacking the user snapshot all produce the one
literal 401 Access Denied response with the cookie cleared; a verified
payload carrying a snapshot attaches it and proceeds downstream. -/
theorem authMiddlewareSpec (authorization : Option HeaderValue)
    (secret : String) (now : Nat) :
    (authorization = none →
      auth authorization secret now = .denied 401 "Access Denied" false true) ∧
    (∀ h, authorization = some h → (jwtVerify h secret now).isOk = false →
      auth authorization secret now = .denied 401 "Access Denied" false true) ∧
    (∀ h p, authorization = some h → jwtVerify h secret now = .ok p →
      p.user = none →
      auth authorization secret now = .denied 401 "Access Denied" false true) ∧
    (∀ h p u, authorization = some h → jwtVerify h secret now = .ok p →
      p.user = some u →
      auth authorization secret now = .proceed u) := by
  refine ⟨?_, ?_, ?_, ?_⟩
  · intro hnone
    subst hnone
    rfl
  · intro h hsome hfail
    subst hsome
    by_cases hf : headerFalsy h
    · simp [auth, authTry, hf]
    · rcases hv : jwtVerify h secret now with e | p
      · simp [auth, authTry, hf, hv]
      · rw [hv] at hfail
        simp [Except.isOk, Except.toBool] at hfail
  · intro h p hsome hver huser
    subst hsome
    cases h with
    | token t =>
      simp [auth, authTry, headerFalsy, hver, huser]
    | bearerToken t => simp [jwtVerify] at hver
    | other s => simp [jwtVerify] at hver
  · intro h p u hsome hver huser
    subst hsome
    cases h with
    | token t =>
      simp [auth, authTry, headerFalsy, hver, huser]
    | bearerToken t => simp [jwtVerify] at hver
    | other s => simp [jwtVerify] at hver

/-- Witness for authMiddlewareSpec covering all four conjuncts at
concrete headers: absence, a malformed header, a payload without a user
snapshot, and a valid token. -/
theorem authMiddlewareSpec_witness :
    auth none "s" 0 = .denied 401 "Access Denied" false true ∧
    auth (some (.other "junk")) "s" 0 =
      .denied 401 "Access Denied" false true ∧
    auth (some (.token ⟨⟨none⟩, "s", 0, 86400⟩)) "s" 0 =
      .denied 401 "Access Denied" false true ∧
    auth (some (.token ⟨⟨some ⟨1, "A", "a@x", "a"⟩⟩, "s", 0, 86400⟩)) "s" 0 =
      .proceed ⟨1, "A", "a@x", "a"⟩ :=
  ⟨(authMiddlewareSpec none "s" 0).1 rfl,
   (authMiddlewareSpec (some (.other "junk")) "s" 0).2.1 (.other "junk")
     rfl (by rfl),
   (authMiddlewareSpec (some (.token ⟨⟨none⟩, "s", 0, 86400⟩)) "s" 0).2.2.1
     (.token ⟨⟨none⟩, "s", 0, 86400⟩) ⟨none⟩ rfl (by rfl) rfl,
   (authMiddlewareSpec (some (.token ⟨⟨some ⟨1, "A", "a@x", "a"⟩⟩, "s", 0,
       86400⟩)) "s" 0).2.2.2
     (.token ⟨⟨some ⟨1, "A", "a@x", "a"⟩⟩, "s", 0, 86400⟩)
     ⟨some ⟨1, "A", "a@x", "a"⟩⟩ ⟨1, "A", "a@x", "a"⟩ rfl (by rfl) rfl⟩

/-- A non-empty string is not JS-falsy: its isEmpty test is false. -/
theorem isEmptyEqFalse {s : String} (h : s ≠ "") : s.isEmpty = false := by
  cases he : s.isEmpty with
  | false => rfl
  | true => exact absurd ((String.isEmpty_iff s).mp he) h

/-- Claim C7: an absent or empty title yields the 400 error and leaves the
post store unchanged; otherwise createPost persists a post whose createdBy
is the authenticated identity's id and answers 201 with that post as a
plain structure. -/
theorem createPostSpec (posts : List Post) (freshId : Nat) (u : UserSnapshot)
    (title : Option String) :
    (falsy title = true →
      createPost posts freshId u title =
        (posts, .error (.api ⟨"Required fields are missing!", 400⟩))) ∧
    (∀ t, title = some t → t ≠ "" →
      createPost posts freshId u title =
        (posts ++ [⟨freshId, t, u.id⟩], .ok (201, ⟨freshId, t, u.id⟩))) := by
  constructor
  · intro h
    simp [createPost, h]
  · intro t ht hne
    subst ht
    have he : t.isEmpty = false := isEmptyEqFalse hne
    simp [createPost, falsy, oget, he]

/-- Witness for createPostSpec: an empty title and the title "Hello". -/
theorem createPostSpec_witness :
    createPost [] 3 ⟨9, "U", "u@x", "u"⟩ (some "") =
      ([], .error (.api ⟨"Required fields are missing!", 400⟩)) ∧
    createPost [] 3 ⟨9, "U", "u@x", "u"⟩ (some "Hello") =
      ([⟨3, "Hello", 9⟩], .ok (201, ⟨3, "Hello", 9⟩)) :=
  ⟨(createPostSpec [] 3 ⟨9, "U", "u@x", "u"⟩ (some "")).1 (by rfl),
   (createPostSpec [] 3 ⟨9, "U", "u@x", "u"⟩ (some "Hello")).2 "Hello" rfl
     (by decide)⟩

/-- Claim C5: with both login fields present, no user matching the given
value by email or username yields the 404; a match with a failing password
comparison yields the 401; a match with a passing comparison yields 200
with the password-stripped snapshot and a freshly signed token over it. -/
theorem loginUserSpec (db : List StoredUser) (secret : String) (now : Nat)
    (userField password : String) (hu : userField ≠ "") (hp : password ≠ "") :
    (db.find? (fun u => u.email == userField || u.username == userField) =
        none →
      loginUser db secret now ⟨some userField, some password⟩ =
        .error (.api ⟨"User does not exist!", 404⟩)) ∧
    (∀ m, db.find? (fun u => u.email == userField || u.username == userField) =
        some m →
      (bcryptCompare password m.password = false →
        loginUser db secret now ⟨some userField, some password⟩ =
          .error (.api ⟨"Invalid Password", 401⟩)) ∧
      (bcryptCompare password m.password = true →
        loginUser db secret now ⟨some userField, some password⟩ =
          .ok (200, ⟨toSnapshot m, jwtSign ⟨some (toSnapshot m)⟩ secret now⟩))) := by
  have hu2 : userField.isEmpty = false := isEmptyEqFalse hu
  have hp2 : password.isEmpty = false := isEmptyEqFalse hp
  refine ⟨?_, ?_⟩
  · intro hfind
    simp [loginUser, falsy, oget, hu2, hp2, hfind]
  · intro m hfind
    constructor
    · intro hbad
      simp [loginUser, falsy, oget, hu2, hp2, hfind, hbad]
    · intro hok
      simp [loginUser, falsy, oget, hu2, hp2, hfind, hok]

/-- Witness for loginUserSpec: unknown user on an empty store, then a
stored user with a wrong and with the right password. -/
theorem loginUserSpec_witness :
    loginUser [] "s" 5 ⟨some "a", some "pw"⟩ =
      .error (.api ⟨"User does not exist!", 404⟩) ∧
    loginUser [⟨1, "A", "a@x", "a", bcryptHash 0 "pw"⟩] "s" 5
        ⟨some "a", some "bad"⟩ =
      .error (.api ⟨"Invalid Password", 401⟩) ∧
    loginUser [⟨1, "A", "a@x", "a", bcryptHash 0 "pw"⟩] "s" 5
        ⟨some "a", some "pw"⟩ =
      .ok (200, ⟨⟨1, "A", "a@x", "a"⟩, jwtSign ⟨some ⟨1, "A", "a@x", "a"⟩⟩
        "s" 5⟩) :=
  ⟨(loginUserSpec [] "s" 5 "a" "pw" (by decide) (by decide)).1 (by rfl),
   ((loginUserSpec [⟨1, "A", "a@x", "a", bcryptHash 0 "pw"⟩] "s" 5 "a" "bad"
       (by decide) (by decide)).2 ⟨1, "A", "a@x", "a", bcryptHash 0 "pw"⟩
     (by rfl)).1 (by rfl),
   ((loginUserSpec [⟨1, "A", "a@x", "a", bcryptHash 0 "pw"⟩] "s" 5 "a" "pw"
       (by decide) (by decide)).2 ⟨1, "A", "a@x", "a", bcryptHash 0 "pw"⟩
     (by rfl)).2 (by rfl)⟩

/-- Claim C6: a signup whose email or username coincides with a stored
user's answers the 409 conflict and leaves the user store unchanged; the
decision comes from the one combined find over email OR username. -/
theorem signupDuplicateConflict (db : List StoredUser) (freshId salt : Nat)
    (fullName email password username : String)
    (h1 : fullName ≠ "") (h2 : email ≠ "") (h3 : password ≠ "")
    (h4 : username ≠ "") (w : StoredUser) (hw : w ∈ db)
    (hdup : w.email = email ∨ w.username = username) :
    signupUser db freshId salt
        ⟨some fullName, some email, some password, some username⟩ =
      (db, .error (.api ⟨"Account with same email or username already exists",
        409⟩)) := by
  have e1 : fullName.isEmpty = false := isEmptyEqFalse h1
  have e2 : email.isEmpty = false := isEmptyEqFalse h2
  have e3 : password.isEmpty = false := isEmptyEqFalse h3
  have e4 : username.isEmpty = false := isEmptyEqFalse h4
  have hsome : (db.find? (fun u =>
      u.email == email || u.username == username)).isSome := by
    rw [List.find?_isSome]
    refine ⟨w, hw, ?_⟩
    rcases hdup with h | h <;> simp [h]
  rcases hfind : db.find? (fun u => u.email == email || u.username == username)
      with _ | v
  · rw [hfind] at hsome
    simp at hsome
  · simp [signupUser, falsy, oget, e1, e2, e3, e4, hfind]

/-- Witness for signupDuplicateConflict at a store already holding the
email being signed up. -/
theorem signupDuplicateConflict_witness :
    signupUser [⟨1, "A", "a@x", "a", bcryptHash 0 "pw"⟩] 2 0
        ⟨some "B", some "a@x", some "pw2", some "b"⟩ =
      ([⟨1, "A", "a@x", "a", bcryptHash 0 "pw"⟩],
       .error (.api ⟨"Account with same email or username already exists",
         409⟩)) :=
  signupDuplicateConflict [⟨1, "A", "a@x", "a", bcryptHash 0 "pw"⟩] 2 0
    "B" "a@x" "pw2" "b" (by decide) (by decide) (by decide) (by decide)
    ⟨1, "A", "a@x", "a", bcryptHash 0 "pw"⟩ (by simp) (by simp)

/-- Claim C9: on a valid, non-duplicate signup the new user document is
appended to the store and only then does the token-signing expression
throw, so the surfaced error coexists with the persisted account; an
identical signup against the resulting store answers the 409 conflict. -/
theorem signupPersistsBeforeToken (db : List StoredUser)
    (freshId salt freshId2 salt2 : Nat)
    (fullName email password username : String)
    (h1 : fullName ≠ "") (h2 : email ≠ "") (h3 : password ≠ "")
    (h4 : username ≠ "")
    (hfresh : ∀ u ∈ db, u.email ≠ email ∧ u.username ≠ username) :
    signupUser db freshId salt
        ⟨some fullName, some email, some password, some username⟩ =
      (db ++ [⟨freshId, fullName, email, username, bcryptHash salt password⟩],
       .error (.referenceError "loggedInUser is not defined")) ∧
    signupUser
        (db ++ [⟨freshId, fullName, email, username, bcryptHash salt password⟩])
        freshId2 salt2
        ⟨some fullName, some email, some password, some username⟩ =
      (db ++ [⟨freshId, fullName, email, username, bcryptHash salt password⟩],
       .error (.api ⟨"Account with same email or username already exists",
         409⟩)) := by
  have e1 : fullName.isEmpty = false := isEmptyEqFalse h1
  have e2 : email.isEmpty = false := isEmptyEqFalse h2
  have e3 : password.isEmpty = false := isEmptyEqFalse h3
  have e4 : username.isEmpty = false := isEmptyEqFalse h4
  have hnone : db.find? (fun u =>
      u.email == email || u.username == username) = none := by
    rw [List.find?_eq_none]
    intro u hu
    simp [(hfresh u hu).1, (hfresh u hu).2]
  constructor
  · simp [signupUser, falsy, oget, e1, e2, e3, e4, hnone]
  · simp [signupUser, falsy, oget, e1, e2, e3, e4, List.find?_append, hnone]

/-- Witness for signupPersistsBeforeToken on the empty store. -/
theorem signupPersistsBeforeToken_witness :
    signupUser [] 1 0 ⟨some "A", some "a@x", some "pw", some "a"⟩ =
      ([⟨1, "A", "a@x", "a", bcryptHash 0 "pw"⟩],
       .error (.referenceError "loggedInUser is not defined")) ∧
    signupUser [⟨1, "A", "a@x", "a", bcryptHash 0 "pw"⟩] 2 1
        ⟨some "A", some "a@x", some "pw", some "a"⟩ =
      ([⟨1, "A", "a@x", "a", bcryptHash 0 "pw"⟩],
       .error (.api ⟨"Account with same email or username already exists",
         409⟩)) :=
  signupPersistsBeforeToken [] 1 0 2 1 "A" "a@x" "pw" "a" (by decide)
    (by decide) (by decide) (by decide) (by simp)

/-- Claim C2: when every stored post carrying the requested id belongs to
someone other than the acting user — in particular when the one post with
that id was created by a different user — update and delete both answer
the 404 built from that id, leave the post store untouched, and produce
exactly the response a nonexistent id produces. -/
theorem ownershipIsolation404 (posts : List Post) (b : UserSnapshot)
    (post : Post) (pid : Nat) (t : String) (hmem : post ∈ posts)
    (hid : post.id = pid) (hown : post.createdBy ≠ b.id)
    (huniq : ∀ q ∈ posts, q.id = pid → q = post) (ht : t ≠ "") :
    updatePost posts b (some t) (.valid pid) =
      (posts, .error (.api ⟨notFoundMsg pid, 404⟩)) ∧
    deletePost posts b (.valid pid) =
      (posts, .error (.api ⟨notFoundMsg pid, 404⟩)) ∧
    (updatePost posts b (some t) (.valid pid)).2 =
      (updatePost [] b (some t) (.valid pid)).2 ∧
    (deletePost posts b (.valid pid)).2 =
      (deletePost [] b (.valid pid)).2 := by
  have hte : t.isEmpty = false := isEmptyEqFalse ht
  have hnone : posts.find? (fun p => p.id == pid && p.createdBy == b.id) =
      none := by
    rw [List.find?_eq_none]
    intro q hq
    by_cases hqid : q.id = pid
    · have hq2 : q = post := huniq q hq hqid
      subst hq2
      simp [hqid, hown]
    · simp [hqid]
  refine ⟨?_, ?_, ?_, ?_⟩
  · simp [updatePost, hte, hnone]
  · simp [deletePost, hnone]
  · simp [updatePost, hte, hnone]
  · simp [deletePost, hnone]

/-- Witness for ownershipIsolation404: user 20 attacking the single post
of user 10. -/
theorem ownershipIsolation404_witness :
    updatePost [⟨1, "hi", 10⟩] ⟨20, "B", "b@x", "b"⟩ (some "New") (.valid 1) =
      ([⟨1, "hi", 10⟩], .error (.api ⟨notFoundMsg 1, 404⟩)) ∧
    deletePost [⟨1, "hi", 10⟩] ⟨20, "B", "b@x", "b"⟩ (.valid 1) =
      ([⟨1, "hi", 10⟩], .error (.api ⟨notFoundMsg 1, 404⟩)) ∧
    (updatePost [⟨1, "hi", 10⟩] ⟨20, "B", "b@x", "b"⟩ (some "New")
        (.valid 1)).2 =
      (updatePost [] ⟨20, "B", "b@x", "b"⟩ (some "New") (.valid 1)).2 ∧
    (deletePost [⟨1, "hi", 10⟩] ⟨20, "B", "b@x", "b"⟩ (.valid 1)).2 =
      (deletePost [] ⟨20, "B", "b@x", "b"⟩ (.valid 1)).2 :=
  ownershipIsolation404 [⟨1, "hi", 10⟩] ⟨20, "B", "b@x", "b"⟩ ⟨1, "hi", 10⟩ 1
    "New" (by simp) rfl (by decide) (by decide) (by decide)

/-- updateFirst keeps the length of the list. -/
theorem updateFirst_length {α : Type} (l : List α) (p : α → Bool)
    (f : α → α) : (updateFirst l p f).length = l.length := by
  induction l with
  | nil => rfl
  | cons x xs ih =>
    by_cases hx : p x
    · simp [updateFirst, hx]
    · simp [updateFirst, hx, ih]

/-- Every position of updateFirst holds either the original element or its
image under the update. -/
theorem updateFirst_getElem? {α : Type} (l : List α) (p : α → Bool)
    (f : α → α) (i : Nat) :
    (updateFirst l p f)[i]? = l[i]? ∨
    (updateFirst l p f)[i]? = (l[i]?).map f := by
  induction l generalizing i with
  | nil => left; rfl
  | cons x xs ih =>
    by_cases hx : p x
    · cases i with
      | zero => right; simp [updateFirst, hx]
      | succ n => left; simp [updateFirst, hx]
    · cases i with
      | zero => left; simp [updateFirst, hx]
      | succ n =>
        rcases ih n with h | h
        · left
          simp [updateFirst, hx, h]
        · right
          simp [updateFirst, hx, h]

/-- Claim C8: every successful updatePost leaves the store the same length
and leaves every stored post's id and createdBy unchanged; each stored
post is either untouched or differs only in its title, which becomes the
returned post's title. -/
theorem updatePostFrame (posts posts2 : List Post) (u : UserSnapshot)
    (title : Option String) (postId : ReqId) (st : Nat) (p2 : Post)
    (h : updatePost posts u title postId = (posts2, .ok (st, p2))) :
    posts2.length = posts.length ∧
    ∀ i : Nat,
      (posts2[i]?).map Post.id = (posts[i]?).map Post.id ∧
      (posts2[i]?).map Post.createdBy = (posts[i]?).map Post.createdBy ∧
      (posts2[i]? = posts[i]? ∨
        posts2[i]? = (posts[i]?).map (fun q => { q with title := p2.title })) := by
  cases title with
  | none => simp [updatePost] at h
  | some t =>
    cases postId with
    | missing => simp [updatePost] at h
    | malformed s => simp [updatePost] at h
    | valid pid =>
      by_cases hte : t.isEmpty
      · simp [updatePost, hte] at h
      · rcases hfind : posts.find? (fun p => p.id == pid && p.createdBy == u.id)
            with _ | post
        · simp [updatePost, hte, hfind] at h
        · simp [updatePost, hte, hfind] at h
          obtain ⟨h1, h2, h3⟩ := h
          subst h1
          subst h2
          subst h3
          refine ⟨updateFirst_length posts _ _, ?_⟩
          intro i
          rcases updateFirst_getElem? posts
              (fun p => p.id == pid && p.createdBy == u.id)
              (fun p => { p with title := t }) i with hc | hc
          · rw [hc]
            exact ⟨rfl, rfl, Or.inl rfl⟩
          · rw [hc]
            cases hq : posts[i]? with
            | none => simp
            | some q => simp

/-- Witness for updatePostFrame: updating the title of a stored post. -/
theorem updatePostFrame_witness :
    updatePost [⟨1, "old", 5⟩] ⟨5, "N", "n@x", "n"⟩ (some "new") (.valid 1) =
      ([⟨1, "new", 5⟩], .ok (200, ⟨1, "new", 5⟩)) ∧
    (([⟨1, "new", 5⟩] : List Post).length =
        ([⟨1, "old", 5⟩] : List Post).length ∧
      ∀ i : Nat,
        (([⟨1, "new", 5⟩] : List Post)[i]?).map Post.id =
          (([⟨1, "old", 5⟩] : List Post)[i]?).map Post.id ∧
        (([⟨1, "new", 5⟩] : List Post)[i]?).map Post.createdBy =
          (([⟨1, "old", 5⟩] : List Post)[i]?).map Post.createdBy ∧
        (([⟨1, "new", 5⟩] : List Post)[i]? =
            ([⟨1, "old", 5⟩] : List Post)[i]? ∨
          ([⟨1, "new", 5⟩] : List Post)[i]? =
            (([⟨1, "old", 5⟩] : List Post)[i]?).map
              (fun q => { q with title := Post.title ⟨1, "new", 5⟩ }))) :=
  ⟨by rfl,
   updatePostFrame [⟨1, "old", 5⟩] [⟨1, "new", 5⟩] ⟨5, "N", "n@x", "n"⟩
     (some "new") (.valid 1) 200 ⟨1, "new", 5⟩ (by rfl)⟩
